import Mathlib

set_option maxRecDepth 8192

/-!
Verification of the enshrined-DEX interception core of op-rbuilder.

The embedding follows the source files:
  crates/op-rbuilder/src/dex/predeploy.rs    (reserved address, selectors)
  crates/op-rbuilder/src/dex/types.rs        (DexResult, DexError, error mapping)
  crates/op-rbuilder/src/dex/handler.rs      (DexHandler dispatch and validation)
  crates/op-rbuilder/src/builders/flashblocks/dex_integration.rs
                                             (gas, logs, receipts, accumulator)

Machine integers are modelled as Nat; addresses are 20-byte values
(`< 2^160`), words are 32-byte values, byte strings are `List Nat`.
The exchange engine itself (the external `dex` crate's `PoolManager`) is not
part of this repository's sources, so the handlers are parameterised over an
`Engine` record supplying its operations; `get_quote` is typed as a pure
function of the state, reflecting that the handler reaches it through a
read lock (`self.pool_manager.read()`), i.e. through `&self`.
-/

namespace DexCore

/-- Account address (20 bytes), as a natural number below 2^160. -/
abbrev Address := Nat

/-- Machine word of 32 bytes (B256 / U256), as a natural number. -/
abbrev Word := Nat

/-- A byte string (each entry one byte). -/
abbrev Bytes := List Nat

/-- The predeploy address for the enshrined DEX,
`0x4200000000000000000000000000000000000042` (predeploy.rs). -/
def DEX_PREDEPLOY_ADDRESS : Address := 0x4200000000000000000000000000000000000042

namespace selectors

/-- createPair(address,address) -/
def CREATE_PAIR : Bytes := [0x6f, 0x36, 0xc6, 0x28]

/-- placeLimitOrder(address,address,bool,uint256,uint256,uint256) -/
def PLACE_LIMIT_ORDER : Bytes := [0x9e, 0x8c, 0xc0, 0x4b]

/-- cancelOrder(bytes32) -/
def CANCEL_ORDER : Bytes := [0xa0, 0x71, 0x96, 0xf1]

/-- swap(address,address,uint256,uint256) -/
def SWAP : Bytes := [0x12, 0x8a, 0xcb, 0x08]

/-- getQuote(address,address,uint256) -/
def GET_QUOTE : Bytes := [0x99, 0x8f, 0x94, 0xf8]

end selectors

/-- Result of a DEX operation (types.rs `DexResult`). -/
inductive DexResult where
  | PairCreated (token0 token1 : Address) (pair_id : Word)
  | OrderPlaced (order_id : Word) (trader : Address)
      (token_in token_out : Address) (amount : Word)
  | OrderCancelled (order_id : Word)
  | SwapExecuted (trader : Address) (token_in token_out : Address)
      (amount_in amount_out : Word)
  | Quote (amount_out : Word) (route : List Word)
  deriving DecidableEq, Repr

/-- Errors that can occur during DEX operations (types.rs `DexError`). -/
inductive DexError where
  | InvalidCalldata (msg : String)
  | PairAlreadyExists
  | PairDoesNotExist
  | InvalidTokenAddress
  | InvalidAmount
  | InvalidPrice
  | OrderNotFound
  | Unauthorized
  | SlippageExceeded
  | InsufficientBalance
  | NoRouteFound
  | DexLibraryError (msg : String)
  deriving DecidableEq, Repr

/-- Order-book errors of the external `dex` crate (`dex::OrderError`). -/
inductive OrderError where
  | OrderNotFound
  | InsufficientLiquidity
  | InvalidPrice
  | BelowMinimumSize
  deriving DecidableEq, Repr

/-- Pool errors of the external `dex` crate (`dex::PoolError`). -/
inductive PoolError where
  | PairAlreadyExists
  | PairNotFound
  | NoRouteFound
  | SlippageExceeded
  | InsufficientLiquidity
  | InvalidAmount
  | InvalidPair
  | OrderError (e : OrderError)
  deriving DecidableEq, Repr

/-- Error mapping `impl From<dex::PoolError> for DexError` (types.rs). -/
def dexErrorOfPoolError : PoolError → DexError
  | .PairAlreadyExists => .PairAlreadyExists
  | .PairNotFound => .PairDoesNotExist
  | .NoRouteFound => .NoRouteFound
  | .SlippageExceeded => .SlippageExceeded
  | .InsufficientLiquidity => .InsufficientBalance
  | .InvalidAmount => .InvalidAmount
  | .InvalidPair => .InvalidTokenAddress
  | .OrderError .OrderNotFound => .OrderNotFound
  | .OrderError .InsufficientLiquidity => .InsufficientBalance
  | .OrderError .InvalidPrice => .InvalidPrice
  | .OrderError .BelowMinimumSize => .InvalidAmount

/-- Order side (`dex::OrderSide`). -/
inductive OrderSide where
  | Buy
  | Sell
  deriving DecidableEq, Repr

/-- A price as a rational `num/denom` of u128 components (`dex::Price`). -/
structure Price where
  num : Nat
  denom : Nat
  deriving DecidableEq, Repr

/-- A quote returned by the engine: projected output amount and the pair-id
route (the `hop.pair.id()` values the handler extracts). -/
structure QuoteRes where
  amount_out : Word
  route : List Word
  deriving DecidableEq, Repr

/-- The exchange-engine interface consumed by the handler. The engine
(`dex::PoolManager`) lives in an external crate; the handler reaches the
mutating operations through a write lock and `get_quote` through a read
lock, so `get_quote` is a pure function of the state (it cannot return a
new state), while mutating operations thread the state. -/
structure Engine (PM : Type) where
  create_pair : Address → Address → PM → Except PoolError (Word × PM)
  place_limit_order : Address → Address → Address → OrderSide → Price → Word →
    PM → Except PoolError (Word × PM)
  execute_swap : Address → Address → Address → Word → Word →
    PM → Except PoolError (Word × PM)
  get_quote : Address → Address → Word → PM → Except PoolError QuoteRes

/-! ### ABI decoding

The handlers decode fixed tuples of static ABI types with
`alloy_sol_types::SolValue::abi_decode`: the payload is a sequence of
32-byte words, addresses occupy the low 20 bytes of a zero-padded word,
booleans are 0 or 1. -/

/-- Big-endian value of a byte string. -/
def beVal (bs : Bytes) : Nat := bs.foldl (fun acc b => acc * 256 + b) 0

/-- The `i`-th 32-byte word of a payload, as a natural number. -/
def wordAt (data : Bytes) (i : Nat) : Nat := beVal ((data.drop (32 * i)).take 32)

/-- Decode `(address,address)` for createPair. -/
def abi_decode_create_pair (data : Bytes) : Option (Address × Address) :=
  if data.length = 64 then
    let t0 := wordAt data 0
    let t1 := wordAt data 1
    if t0 < 2 ^ 160 ∧ t1 < 2 ^ 160 then some (t0, t1) else none
  else none

/-- Decode `(address,address,bool,uint256,uint256,uint256)` for
placeLimitOrder. -/
def abi_decode_place_limit_order (data : Bytes) :
    Option (Address × Address × Bool × Word × Word × Word) :=
  if data.length = 192 then
    let tIn := wordAt data 0
    let tOut := wordAt data 1
    let b := wordAt data 2
    if tIn < 2 ^ 160 ∧ tOut < 2 ^ 160 ∧ b ≤ 1 then
      some (tIn, tOut, b = 1, wordAt data 3, wordAt data 4, wordAt data 5)
    else none
  else none

/-- Decode `(bytes32)` for cancelOrder. -/
def abi_decode_cancel_order (data : Bytes) : Option Word :=
  if data.length = 32 then some (wordAt data 0) else none

/-- Decode `(address,address,uint256,uint256)` for swap. -/
def abi_decode_swap (data : Bytes) :
    Option (Address × Address × Word × Word) :=
  if data.length = 128 then
    let tIn := wordAt data 0
    let tOut := wordAt data 1
    if tIn < 2 ^ 160 ∧ tOut < 2 ^ 160 then
      some (tIn, tOut, wordAt data 2, wordAt data 3)
    else none
  else none

/-- Decode `(address,address,uint256)` for getQuote. -/
def abi_decode_get_quote (data : Bytes) :
    Option (Address × Address × Word) :=
  if data.length = 96 then
    let tIn := wordAt data 0
    let tOut := wordAt data 1
    if tIn < 2 ^ 160 ∧ tOut < 2 ^ 160 then
      some (tIn, tOut, wordAt data 2)
    else none
  else none

/-- Lower-case hex digit. -/
def hexChar (n : Nat) : Char :=
  if n < 10 then Char.ofNat (48 + n) else Char.ofNat (87 + n)

/-- Two-digit lower-case hex of one byte (`hex::encode` per byte). -/
def hexByte (b : Nat) : String :=
  String.mk [hexChar (b / 16 % 16), hexChar (b % 16)]

/-- `hex::encode` of a byte string. -/
def hexEncode (bs : Bytes) : String := String.join (bs.map hexByte)

/-! ### Handlers (handler.rs)

Each handler returns the Rust `Result<DexResult, DexError>` together with the
pool-manager state after the call (the state behind the `RwLock`). -/

/-- Handler `DexHandler::handle_create_pair`. -/
def handle_create_pair (eng : Engine PM) (_caller : Address) (data : Bytes)
    (pm : PM) : Except DexError DexResult × PM :=
  match abi_decode_create_pair data with
  | none => (.error (.InvalidCalldata "failed to decode createPair"), pm)
  | some (token0, token1) =>
    match eng.create_pair token0 token1 pm with
    | .error e => (.error (dexErrorOfPoolError e), pm)
    | .ok (pair_id, pm') => (.ok (.PairCreated token0 token1 pair_id), pm')

/-- Handler `DexHandler::handle_place_limit_order`. The `u128` conversions of the
price components (`try_into`) fail exactly when the value is `≥ 2^128`. -/
def handle_place_limit_order (eng : Engine PM) (caller : Address)
    (data : Bytes) (_value : Word) (pm : PM) : Except DexError DexResult × PM :=
  match abi_decode_place_limit_order data with
  | none => (.error (.InvalidCalldata "failed to decode placeLimitOrder"), pm)
  | some (token_in, token_out, is_buy, amount, price_num, price_denom) =>
    if amount = 0 then (.error .InvalidAmount, pm)
    else if price_num = 0 ∨ price_denom = 0 then (.error .InvalidPrice, pm)
    else if 2 ^ 128 ≤ price_num then (.error .InvalidPrice, pm)
    else if 2 ^ 128 ≤ price_denom then (.error .InvalidPrice, pm)
    else
      let price : Price := ⟨price_num, price_denom⟩
      let side := if is_buy then OrderSide.Buy else OrderSide.Sell
      match eng.place_limit_order token_in token_out caller side price amount pm with
      | .error e => (.error (dexErrorOfPoolError e), pm)
      | .ok (order_id, pm') =>
        (.ok (.OrderPlaced order_id caller token_in token_out amount), pm')

/-- Handler `DexHandler::handle_cancel_order`. The source decodes the order id and
then unconditionally returns success (the cancellation itself is an
acknowledged TODO in the source). -/
def handle_cancel_order (_eng : Engine PM) (_caller : Address) (data : Bytes)
    (pm : PM) : Except DexError DexResult × PM :=
  match abi_decode_cancel_order data with
  | none => (.error (.InvalidCalldata "failed to decode cancelOrder"), pm)
  | some order_id => (.ok (.OrderCancelled order_id), pm)

/-- Handler `DexHandler::handle_swap`. -/
def handle_swap (eng : Engine PM) (caller : Address) (data : Bytes)
    (_value : Word) (pm : PM) : Except DexError DexResult × PM :=
  match abi_decode_swap data with
  | none => (.error (.InvalidCalldata "failed to decode swap"), pm)
  | some (token_in, token_out, amount_in, min_amount_out) =>
    if amount_in = 0 then (.error .InvalidAmount, pm)
    else
      match eng.execute_swap caller token_in token_out amount_in min_amount_out pm with
      | .error e => (.error (dexErrorOfPoolError e), pm)
      | .ok (amount_out, pm') =>
        (.ok (.SwapExecuted caller token_in token_out amount_in amount_out), pm')

/-- Handler `DexHandler::handle_get_quote`. The engine is reached through a read
lock, so the state is returned unchanged. -/
def handle_get_quote (eng : Engine PM) (data : Bytes) (pm : PM) :
    Except DexError DexResult × PM :=
  match abi_decode_get_quote data with
  | none => (.error (.InvalidCalldata "failed to decode getQuote"), pm)
  | some (token_in, token_out, amount_in) =>
    match eng.get_quote token_in token_out amount_in pm with
    | .error e => (.error (dexErrorOfPoolError e), pm)
    | .ok result => (.ok (.Quote result.amount_out result.route), pm)

/-- Dispatch `DexHandler::handle_transaction`: selector dispatch over the calldata. -/
def handle_transaction (eng : Engine PM) (caller : Address) (calldata : Bytes)
    (value : Word) (pm : PM) : Except DexError DexResult × PM :=
  if calldata.length < 4 then
    (.error (.InvalidCalldata "calldata too short for function selector"), pm)
  else
    let selector := calldata.take 4
    if selector = selectors.CREATE_PAIR then
      handle_create_pair eng caller (calldata.drop 4) pm
    else if selector = selectors.PLACE_LIMIT_ORDER then
      handle_place_limit_order eng caller (calldata.drop 4) value pm
    else if selector = selectors.CANCEL_ORDER then
      handle_cancel_order eng caller (calldata.drop 4) pm
    else if selector = selectors.SWAP then
      handle_swap eng caller (calldata.drop 4) value pm
    else if selector = selectors.GET_QUOTE then
      handle_get_quote eng (calldata.drop 4) pm
    else
      (.error (.InvalidCalldata
        ("unknown function selector: 0x" ++ hexEncode selector)), pm)

/-! ### Result encoder and accumulator (dex_integration.rs) -/

/-- A log topic: either the keccak hash of an event signature (kept
symbolic) or a 32-byte word (`B256::left_padding_from` of an address, or a
pair/order id). -/
inductive LogTopic where
  | sig (s : String)
  | word (w : Word)
  deriving DecidableEq, Repr

/-- One log entry (`alloy_primitives::Log`). -/
structure Log where
  address : Address
  topics : List LogTopic
  data : Bytes
  deriving DecidableEq, Repr

/-- An Optimism receipt as built here (`OpReceipt::Eip1559`). -/
structure OpReceipt where
  status : Bool
  cumulative_gas_used : Nat
  logs : List Log
  deriving DecidableEq, Repr

/-- A transaction as seen by the integration layer: destination (`tx.to()`,
named `toAddr` here since `to` is reserved), input payload, value. -/
structure Tx where
  toAddr : Option Address
  input : Bytes
  value : Word
  deriving DecidableEq, Repr

/-- Per-block execution accumulator (`ExecutionInfo`), the fields that the
DEX path touches. -/
structure ExecutionInfo where
  cumulative_gas_used : Nat
  receipts : List OpReceipt
  executed_senders : List Address
  executed_transactions : List Tx
  deriving DecidableEq, Repr

/-- Interceptor `is_dex_transaction`: true iff the destination is the DEX predeploy;
contract creations (no destination) are never intercepted. -/
def is_dex_transaction (tx : Tx) : Bool :=
  match tx.toAddr with
  | some addr => addr = DEX_PREDEPLOY_ADDRESS
  | none => false

/-- Gas table `estimate_dex_gas`: fixed gas by operation kind. -/
def estimate_dex_gas : DexResult → Nat
  | .PairCreated .. => 100000
  | .OrderPlaced .. => 150000
  | .OrderCancelled .. => 50000
  | .SwapExecuted .. => 200000
  | .Quote .. => 0

/-- ABI encoding of a `uint256`: 32 big-endian bytes. -/
def beBytes32 (n : Nat) : Bytes :=
  (List.range 32).map (fun i => n / 256 ^ (31 - i) % 256)

/-- Encoder `create_dex_logs`: the log entries the integration layer emits for a
successful result. -/
def create_dex_logs (result : DexResult) (_tx_hash : Word) : List Log :=
  match result with
  | .PairCreated token0 token1 pair_id =>
    [{ address := DEX_PREDEPLOY_ADDRESS
       topics := [.sig "PairCreated(address,address,bytes32)",
                  .word token0, .word token1, .word pair_id]
       data := [] }]
  | .OrderPlaced order_id trader token_in _token_out amount =>
    [{ address := DEX_PREDEPLOY_ADDRESS
       topics := [.sig "LimitOrderPlaced(bytes32,address,address,address,bool,uint256,uint256,uint256)",
                  .word order_id, .word trader, .word token_in]
       data := beBytes32 amount }]
  | .OrderCancelled order_id =>
    [{ address := DEX_PREDEPLOY_ADDRESS
       topics := [.sig "OrderCancelled(bytes32,address)", .word order_id]
       data := [] }]
  | .SwapExecuted trader token_in token_out amount_in amount_out =>
    [{ address := DEX_PREDEPLOY_ADDRESS
       topics := [.sig "Swap(address,address,address,uint256,uint256,bytes32[])",
                  .word trader, .word token_in, .word token_out]
       data := beBytes32 amount_in ++ beBytes32 amount_out }]
  | .Quote .. => []

/-- Encoder `create_dex_receipt`: receipt for a successful DEX operation. -/
def create_dex_receipt (cumulative_gas_used : Nat) (_gas_used : Nat)
    (logs : List Log) (_result : DexResult) : OpReceipt :=
  { status := true, cumulative_gas_used := cumulative_gas_used, logs := logs }

/-- Encoder `create_failed_dex_receipt`: receipt for a failed DEX operation. -/
def create_failed_dex_receipt (cumulative_gas_used : Nat) (gas_used : Nat) :
    OpReceipt :=
  { status := false
    cumulative_gas_used := cumulative_gas_used + gas_used
    logs := [] }

/-- Integration `execute_dex_transaction`: dispatches the transaction to the handler and
appends gas, receipt, sender and transaction to the accumulator; a handler
error becomes a reverted-but-included receipt and the function still
returns `Ok`. The transaction hash argument of `create_dex_logs` is modelled
as 0 (it is unused there). -/
def execute_dex_transaction (eng : Engine PM) (tx : Tx) (sender : Address)
    (info : ExecutionInfo) (pm : PM) : Except String (ExecutionInfo × PM) :=
  match handle_transaction eng sender tx.input tx.value pm with
  | (.error _, pm') =>
    .ok ({ cumulative_gas_used := info.cumulative_gas_used + 21000
           receipts := info.receipts ++
             [create_failed_dex_receipt info.cumulative_gas_used 21000]
           executed_senders := info.executed_senders ++ [sender]
           executed_transactions := info.executed_transactions ++ [tx] }, pm')
  | (.ok result, pm') =>
    let gas_used := estimate_dex_gas result
    let cumulative := info.cumulative_gas_used + gas_used
    let logs := create_dex_logs result 0
    .ok ({ cumulative_gas_used := cumulative
           receipts := info.receipts ++
             [create_dex_receipt cumulative gas_used logs result]
           executed_senders := info.executed_senders ++ [sender]
           executed_transactions := info.executed_transactions ++ [tx] }, pm')

/-- A concrete engine over a trivial state, used to instantiate the
universally quantified theorems at concrete inputs. -/
def trivialEngine : Engine Unit where
  create_pair := fun _ _ pm => .ok (0, pm)
  place_limit_order := fun _ _ _ _ _ _ pm => .ok (1, pm)
  execute_swap := fun _ _ _ _ _ pm => .ok (0, pm)
  get_quote := fun _ _ _ _ => .ok ⟨0, []⟩

instance : DecidableEq (Except DexError DexResult) := fun a b =>
  match a, b with
  | .error x, .error y =>
    if h : x = y then .isTrue (by rw [h]) else .isFalse (by simp [h])
  | .error _, .ok _ => .isFalse (by simp)
  | .ok _, .error _ => .isFalse (by simp)
  | .ok x, .ok y =>
    if h : x = y then .isTrue (by rw [h]) else .isFalse (by simp [h])

/-- An ABI getQuote argument payload `(tokenIn = 1, tokenOut = 2, amountIn = 0)`. -/
def quoteZeroPayload : Bytes := beBytes32 1 ++ beBytes32 2 ++ beBytes32 0

/-- An ABI swap argument payload `(tokenIn = 1, tokenOut = 2, amountIn = 0,
minAmountOut = 0)`. -/
def swapZeroPayload : Bytes :=
  beBytes32 1 ++ beBytes32 2 ++ beBytes32 0 ++ beBytes32 0

/-- An ABI placeLimitOrder argument payload with the given field values. -/
def plpPayload (tin tout b amt num den : Nat) : Bytes :=
  beBytes32 tin ++ beBytes32 tout ++ beBytes32 b ++ beBytes32 amt ++
    beBytes32 num ++ beBytes32 den

/-- A transaction addressed to the DEX predeploy with empty input (its
decoding fails: too short for a selector). -/
def txFailW : Tx := { toAddr := some DEX_PREDEPLOY_ADDRESS, input := [], value := 0 }

/-- A sample accumulator mid-block. -/
def infoW : ExecutionInfo :=
  { cumulative_gas_used := 5
    receipts := []
    executed_senders := []
    executed_transactions := [] }

/-! ## Theorems -/

/-- Equation lemma: `handle_place_limit_order` on a successfully decoded
payload reduces to the validation chain followed by the engine call. -/
theorem handle_place_limit_order_some {PM : Type} (eng : Engine PM)
    (caller : Address) (data : Bytes) (value : Word) (pm : PM)
    (tin tout : Address) (b : Bool) (amt num den : Word)
    (hdec : abi_decode_place_limit_order data = some (tin, tout, b, amt, num, den)) :
    handle_place_limit_order eng caller data value pm =
      (if amt = 0 then (.error .InvalidAmount, pm)
       else if num = 0 ∨ den = 0 then (.error .InvalidPrice, pm)
       else if 2 ^ 128 ≤ num then (.error .InvalidPrice, pm)
       else if 2 ^ 128 ≤ den then (.error .InvalidPrice, pm)
       else
         match eng.place_limit_order tin tout caller
             (if b then OrderSide.Buy else OrderSide.Sell) ⟨num, den⟩ amt pm with
         | .error e => (.error (dexErrorOfPoolError e), pm)
         | .ok (oid, pm') => (.ok (.OrderPlaced oid caller tin tout amt), pm')) := by
  unfold handle_place_limit_order
  rw [hdec]

/-- Helper: `handle_get_quote` never changes the pool-manager state. -/
theorem handle_get_quote_state {PM : Type} (eng : Engine PM) (data : Bytes)
    (pm : PM) : (handle_get_quote eng data pm).2 = pm := by
  unfold handle_get_quote
  split
  · rfl
  · split <;> rfl

/-- C1: for every DEX-addressed transaction whose decode or engine execution
fails, `execute_dex_transaction` appends a receipt marked failed whose
cumulative gas is the running total plus exactly the 21000 base gas, with no
logs, adds 21000 to the running total, still records the sender and the raw
transaction, and returns `Ok` — the error never propagates to the caller. -/
theorem dex_failure_reverted_but_included {PM : Type} (eng : Engine PM)
    (tx : Tx) (sender : Address) (info : ExecutionInfo) (pm pm' : PM)
    (e : DexError)
    (_hdex : is_dex_transaction tx = true)
    (h : handle_transaction eng sender tx.input tx.value pm = (.error e, pm')) :
    execute_dex_transaction eng tx sender info pm =
      .ok ({ cumulative_gas_used := info.cumulative_gas_used + 21000
             receipts := info.receipts ++
               [{ status := false
                  cumulative_gas_used := info.cumulative_gas_used + 21000
                  logs := [] }]
             executed_senders := info.executed_senders ++ [sender]
             executed_transactions := info.executed_transactions ++ [tx] }, pm') := by
  unfold execute_dex_transaction
  rw [h]
  rfl

/-- Witness for C1: a DEX-addressed transaction with empty calldata fails to
decode and is included as a reverted receipt charging 21000 gas. -/
theorem dex_failure_reverted_but_included_witness :
    is_dex_transaction txFailW = true ∧
    execute_dex_transaction trivialEngine txFailW 7 infoW () =
      .ok ({ cumulative_gas_used := infoW.cumulative_gas_used + 21000
             receipts := infoW.receipts ++
               [{ status := false
                  cumulative_gas_used := infoW.cumulative_gas_used + 21000
                  logs := [] }]
             executed_senders := infoW.executed_senders ++ [7]
             executed_transactions := infoW.executed_transactions ++ [txFailW] }, ()) :=
  ⟨by decide,
   dex_failure_reverted_but_included trivialEngine txFailW 7 infoW () ()
     (.InvalidCalldata "calldata too short for function selector")
     (by decide) rfl⟩

/-- C2: the claim states the intended cancelOrder contract (OrderNotFound for
a nonexistent identifier, Unauthorized for a foreign caller), but
`handle_cancel_order` unconditionally reports success after decoding the
order id: on an engine with no resting orders, cancelling order 1 succeeds
for two different callers and never returns OrderNotFound or Unauthorized. -/
theorem cancel_order_unconditional_success :
    handle_cancel_order trivialEngine 66 (beBytes32 1) () =
      (.ok (.OrderCancelled 1), ()) ∧
    handle_cancel_order trivialEngine 99 (beBytes32 1) () =
      (.ok (.OrderCancelled 1), ()) ∧
    (handle_cancel_order trivialEngine 66 (beBytes32 1) ()).1 ≠
      .error .OrderNotFound ∧
    (handle_cancel_order trivialEngine 66 (beBytes32 1) ()).1 ≠
      .error .Unauthorized :=
  ⟨rfl, rfl, by decide, by decide⟩

/-- C3: processing a DEX-addressed transaction (success or failure) appends
exactly one receipt, one sender and one transaction to the accumulator, and
its cumulative gas never decreases. -/
theorem accumulator_one_receipt_per_tx {PM : Type} (eng : Engine PM)
    (tx : Tx) (sender : Address) (info : ExecutionInfo) (pm : PM)
    (_hdex : is_dex_transaction tx = true) :
    ∃ (i2 : ExecutionInfo) (pm' : PM),
      execute_dex_transaction eng tx sender info pm = .ok (i2, pm') ∧
      i2.receipts.length = info.receipts.length + 1 ∧
      i2.executed_senders.length = info.executed_senders.length + 1 ∧
      i2.executed_transactions.length = info.executed_transactions.length + 1 ∧
      info.cumulative_gas_used ≤ i2.cumulative_gas_used := by
  unfold execute_dex_transaction
  rcases h : handle_transaction eng sender tx.input tx.value pm with ⟨res, pm'⟩
  cases res with
  | error e => refine ⟨_, pm', rfl, ?_, ?_, ?_, ?_⟩ <;> simp
  | ok r => refine ⟨_, pm', rfl, ?_, ?_, ?_, ?_⟩ <;> simp

/-- Witness for C3 at a concrete transaction and accumulator. -/
theorem accumulator_one_receipt_per_tx_witness :
    is_dex_transaction txFailW = true ∧
    ∃ (i2 : ExecutionInfo) (pm' : Unit),
      execute_dex_transaction trivialEngine txFailW 7 infoW () = .ok (i2, pm') ∧
      i2.receipts.length = infoW.receipts.length + 1 ∧
      i2.executed_senders.length = infoW.executed_senders.length + 1 ∧
      i2.executed_transactions.length = infoW.executed_transactions.length + 1 ∧
      infoW.cumulative_gas_used ≤ i2.cumulative_gas_used :=
  ⟨by decide,
   accumulator_one_receipt_per_tx trivialEngine txFailW 7 infoW () (by decide)⟩

/-- C4 counterexample: a decoded getQuote with `amountIn = 0` does not make
the dispatcher fail with InvalidAmount before invoking the engine — with an
engine whose `get_quote` answers, `handle_get_quote` returns that answer. -/
theorem get_quote_zero_amount_not_rejected :
    abi_decode_get_quote quoteZeroPayload = some (1, 2, 0) ∧
    handle_get_quote trivialEngine quoteZeroPayload () =
      (.ok (.Quote 0 []), ()) ∧
    (handle_get_quote trivialEngine quoteZeroPayload ()).1 ≠
      .error .InvalidAmount :=
  ⟨by decide, rfl, by decide⟩

/-- C4 amended: decoded placeLimitOrder and swap operations with a zero
amount fail with InvalidAmount before invoking the engine, leaving the state
untouched; getQuote has no dispatcher-level zero-amount check and hands
`amountIn = 0` straight to the engine (state still untouched, via the read
lock). -/
theorem amount_validation_amended :
    (∀ {PM : Type} (eng : Engine PM) (caller : Address) (data : Bytes)
      (value : Word) (pm : PM) (tin tout : Address) (b : Bool) (num den : Word),
      abi_decode_place_limit_order data = some (tin, tout, b, 0, num, den) →
      handle_place_limit_order eng caller data value pm =
        (.error .InvalidAmount, pm)) ∧
    (∀ {PM : Type} (eng : Engine PM) (caller : Address) (data : Bytes)
      (value : Word) (pm : PM) (tin tout : Address) (minOut : Word),
      abi_decode_swap data = some (tin, tout, 0, minOut) →
      handle_swap eng caller data value pm = (.error .InvalidAmount, pm)) ∧
    (∀ {PM : Type} (eng : Engine PM) (data : Bytes) (pm : PM)
      (tin tout : Address),
      abi_decode_get_quote data = some (tin, tout, 0) →
      handle_get_quote eng data pm =
        (match eng.get_quote tin tout 0 pm with
         | .error e => (.error (dexErrorOfPoolError e), pm)
         | .ok r => (.ok (.Quote r.amount_out r.route), pm))) := by
  refine ⟨?_, ?_, ?_⟩
  · intro PM eng caller data value pm tin tout b num den hdec
    rw [handle_place_limit_order_some eng caller data value pm tin tout b 0 num den hdec]
    rfl
  · intro PM eng caller data value pm tin tout minOut hdec
    unfold handle_swap
    rw [hdec]
    rfl
  · intro PM eng data pm tin tout hdec
    unfold handle_get_quote
    rw [hdec]

/-- Witness for C4 amended: all three conjuncts at concrete payloads with
zero amounts. -/
theorem amount_validation_amended_witness :
    (abi_decode_place_limit_order (plpPayload 1 2 0 0 3 4) =
       some (1, 2, false, 0, 3, 4) ∧
     handle_place_limit_order trivialEngine 7 (plpPayload 1 2 0 0 3 4) 0 () =
       (.error .InvalidAmount, ())) ∧
    (abi_decode_swap swapZeroPayload = some (1, 2, 0, 0) ∧
     handle_swap trivialEngine 7 swapZeroPayload 0 () =
       (.error .InvalidAmount, ())) ∧
    (abi_decode_get_quote quoteZeroPayload = some (1, 2, 0) ∧
     handle_get_quote trivialEngine quoteZeroPayload () =
       (match trivialEngine.get_quote 1 2 0 () with
        | .error e => (.error (dexErrorOfPoolError e), ())
        | .ok r => (.ok (.Quote r.amount_out r.route), ()))) :=
  ⟨⟨by decide,
    amount_validation_amended.1 trivialEngine 7 (plpPayload 1 2 0 0 3 4) 0 ()
      1 2 false 3 4 (by decide)⟩,
   ⟨by decide,
    amount_validation_amended.2.1 trivialEngine 7 swapZeroPayload 0 ()
      1 2 0 (by decide)⟩,
   ⟨by decide,
    amount_validation_amended.2.2 trivialEngine quoteZeroPayload ()
      1 2 (by decide)⟩⟩

/-- C5: getQuote never mutates state — both at the `handle_get_quote`
component and through the full `handle_transaction` dispatch with the
getQuote selector, the pool-manager state after the call is the state
before it, for every engine, caller, payload and value. -/
theorem get_quote_preserves_state :
    (∀ {PM : Type} (eng : Engine PM) (data : Bytes) (pm : PM),
      (handle_get_quote eng data pm).2 = pm) ∧
    (∀ {PM : Type} (eng : Engine PM) (caller : Address) (data : Bytes)
      (value : Word) (pm : PM),
      (handle_transaction eng caller (selectors.GET_QUOTE ++ data) value pm).2
        = pm) := by
  constructor
  · intro PM eng data pm
    exact handle_get_quote_state eng data pm
  · intro PM eng caller data value pm
    unfold handle_transaction
    simp [selectors.GET_QUOTE, selectors.CREATE_PAIR, selectors.PLACE_LIMIT_ORDER,
          selectors.CANCEL_ORDER, selectors.SWAP]
    exact handle_get_quote_state eng data pm

/-- C6 counterexample: a decoded placeLimitOrder with price numerator 0 but
also amount 0 fails with InvalidAmount, not InvalidPrice — the amount check
runs first. -/
theorem zero_price_zero_amount_gives_invalid_amount :
    abi_decode_place_limit_order (plpPayload 1 2 0 0 0 5) =
      some (1, 2, false, 0, 0, 5) ∧
    handle_place_limit_order trivialEngine 7 (plpPayload 1 2 0 0 0 5) 0 () =
      (.error .InvalidAmount, ()) ∧
    (handle_place_limit_order trivialEngine 7 (plpPayload 1 2 0 0 0 5) 0 ()).1 ≠
      .error .InvalidPrice :=
  ⟨by decide, rfl, by decide⟩

/-- C6 amended: for every decoded placeLimitOrder with nonzero amount, a zero
price numerator or denominator, or one that does not fit u128, makes the
dispatcher fail with InvalidPrice before invoking the engine, leaving the
state untouched (with amount 0 as well, the earlier amount check yields
InvalidAmount instead). -/
theorem invalid_price_validation_amended {PM : Type} (eng : Engine PM)
    (caller : Address) (data : Bytes) (value : Word) (pm : PM)
    (tin tout : Address) (b : Bool) (amt num den : Word)
    (hdec : abi_decode_place_limit_order data = some (tin, tout, b, amt, num, den))
    (hamt : amt ≠ 0)
    (hbad : num = 0 ∨ den = 0 ∨ 2 ^ 128 ≤ num ∨ 2 ^ 128 ≤ den) :
    handle_place_limit_order eng caller data value pm =
      (.error .InvalidPrice, pm) := by
  rw [handle_place_limit_order_some eng caller data value pm tin tout b amt num den hdec]
  rw [if_neg hamt]
  by_cases h0 : num = 0 ∨ den = 0
  · rw [if_pos h0]
  · rw [if_neg h0]
    by_cases h1 : 2 ^ 128 ≤ num
    · rw [if_pos h1]
    · rw [if_neg h1]
      have h2 : 2 ^ 128 ≤ den := by
        rcases hbad with h | h | h | h
        · exact absurd (Or.inl h) h0
        · exact absurd (Or.inr h) h0
        · exact absurd h h1
        · exact h
      rw [if_pos h2]

/-- Witness for C6 amended: a price numerator of `2^128` (one past the u128
maximum) with nonzero amount is rejected with InvalidPrice rather than
silently truncated. -/
theorem invalid_price_validation_amended_witness :
    abi_decode_place_limit_order (plpPayload 1 2 0 5 (2 ^ 128) 1) =
      some (1, 2, false, 5, 2 ^ 128, 1) ∧
    (5 : Word) ≠ 0 ∧
    handle_place_limit_order trivialEngine 7 (plpPayload 1 2 0 5 (2 ^ 128) 1) 0 ()
      = (.error .InvalidPrice, ()) :=
  ⟨by decide, by decide,
   invalid_price_validation_amended trivialEngine 7
     (plpPayload 1 2 0 5 (2 ^ 128) 1) 0 () 1 2 false 5 (2 ^ 128) 1
     (by decide) (by decide) (Or.inr (Or.inr (Or.inl (by decide))))⟩

/-- C7: the gas charged for a successful engine result is fixed by the
operation kind alone: 100000 for pair-created, 150000 for order-placed,
50000 for order-cancelled, 200000 for swap-executed, 0 for quote. -/
theorem estimate_dex_gas_fixed :
    (∀ (t0 t1 : Address) (pid : Word),
      estimate_dex_gas (.PairCreated t0 t1 pid) = 100000) ∧
    (∀ (oid : Word) (tr tin tout : Address) (amt : Word),
      estimate_dex_gas (.OrderPlaced oid tr tin tout amt) = 150000) ∧
    (∀ (oid : Word), estimate_dex_gas (.OrderCancelled oid) = 50000) ∧
    (∀ (tr tin tout : Address) (ain aout : Word),
      estimate_dex_gas (.SwapExecuted tr tin tout ain aout) = 200000) ∧
    (∀ (aout : Word) (route : List Word),
      estimate_dex_gas (.Quote aout route) = 0) :=
  ⟨fun _ _ _ => rfl, fun _ _ _ _ _ => rfl, fun _ => rfl,
   fun _ _ _ _ _ => rfl, fun _ _ => rfl⟩

/-- C8: a payload shorter than 4 bytes fails with the "too short" decode
error; a 4-byte-or-longer payload whose selector matches none of the five
operations fails with a decode error naming the hex of the raw selector
bytes; in both cases the pool-manager state is returned untouched. -/
theorem decode_errors_no_state_touched :
    (∀ {PM : Type} (eng : Engine PM) (caller : Address) (calldata : Bytes)
      (value : Word) (pm : PM),
      calldata.length < 4 →
      handle_transaction eng caller calldata value pm =
        (.error (.InvalidCalldata "calldata too short for function selector"),
         pm)) ∧
    (∀ {PM : Type} (eng : Engine PM) (caller : Address) (calldata : Bytes)
      (value : Word) (pm : PM),
      4 ≤ calldata.length →
      calldata.take 4 ≠ selectors.CREATE_PAIR →
      calldata.take 4 ≠ selectors.PLACE_LIMIT_ORDER →
      calldata.take 4 ≠ selectors.CANCEL_ORDER →
      calldata.take 4 ≠ selectors.SWAP →
      calldata.take 4 ≠ selectors.GET_QUOTE →
      handle_transaction eng caller calldata value pm =
        (.error (.InvalidCalldata
          ("unknown function selector: 0x" ++ hexEncode (calldata.take 4))),
         pm)) := by
  constructor
  · intro PM eng caller calldata value pm h
    unfold handle_transaction
    rw [if_pos h]
  · intro PM eng caller calldata value pm h h1 h2 h3 h4 h5
    unfold handle_transaction
    rw [if_neg (by omega), if_neg h1, if_neg h2, if_neg h3, if_neg h4, if_neg h5]

/-- Witness for C8: the empty payload and the unknown selector 00000000. -/
theorem decode_errors_no_state_touched_witness :
    (([] : Bytes).length < 4 ∧
     handle_transaction trivialEngine 7 [] 0 () =
       (.error (.InvalidCalldata "calldata too short for function selector"),
        ())) ∧
    (4 ≤ ([0, 0, 0, 0] : Bytes).length ∧
     handle_transaction trivialEngine 7 [0, 0, 0, 0] 0 () =
       (.error (.InvalidCalldata
         ("unknown function selector: 0x" ++ hexEncode ([0, 0, 0, 0].take 4))),
        ())) :=
  ⟨⟨by decide,
    decode_errors_no_state_touched.1 trivialEngine 7 [] 0 () (by decide)⟩,
   ⟨by decide,
    decode_errors_no_state_touched.2 trivialEngine 7 [0, 0, 0, 0] 0 ()
      (by decide) (by decide) (by decide) (by decide) (by decide) (by decide)⟩⟩

/-- C9: the claim states the spec's full per-event shapes, but the encoder
emits simplified logs: the LimitOrderPlaced body carries only the 32-byte
amount (not tokenOut, isBuy, amount, price numerator, price denominator —
a five-field static tuple would be 160 bytes, and the result does not even
carry isBuy or the price); the OrderCancelled log carries only the order-id
topic with an empty body (no trader address); the Swap body carries only the
two amounts (no route). The PairCreated shape and quote-no-logs do match. -/
theorem dex_logs_actual_shapes :
    create_dex_logs (.OrderPlaced 1 10 20 30 5) 0 =
      [{ address := DEX_PREDEPLOY_ADDRESS
         topics := [.sig "LimitOrderPlaced(bytes32,address,address,address,bool,uint256,uint256,uint256)",
                    .word 1, .word 10, .word 20]
         data := beBytes32 5 }] ∧
    (beBytes32 5).length = 32 ∧
    create_dex_logs (.OrderCancelled 7) 0 =
      [{ address := DEX_PREDEPLOY_ADDRESS
         topics := [.sig "OrderCancelled(bytes32,address)", .word 7]
         data := [] }] ∧
    create_dex_logs (.SwapExecuted 10 20 30 4 6) 0 =
      [{ address := DEX_PREDEPLOY_ADDRESS
         topics := [.sig "Swap(address,address,address,uint256,uint256,bytes32[])",
                    .word 10, .word 20, .word 30]
         data := beBytes32 4 ++ beBytes32 6 }] ∧
    create_dex_logs (.PairCreated 10 20 3) 0 =
      [{ address := DEX_PREDEPLOY_ADDRESS
         topics := [.sig "PairCreated(address,address,bytes32)",
                    .word 10, .word 20, .word 3]
         data := [] }] ∧
    create_dex_logs (.Quote 5 [1, 2]) 0 = [] :=
  ⟨rfl, by decide, rfl, rfl, rfl, rfl⟩

/-- C10: the outcome of `handle_transaction` is independent of the ETH value
sent with the transaction — both the result and the resulting engine state
agree for any two values. -/
theorem handle_transaction_value_independent {PM : Type} (eng : Engine PM)
    (caller : Address) (calldata : Bytes) (v1 v2 : Word) (pm : PM) :
    handle_transaction eng caller calldata v1 pm =
      handle_transaction eng caller calldata v2 pm := rfl

end DexCore
